import Mathlib

/-!
Shallow embedding of the agent execution core of the repository
(message_system.py, llm_client.py, orchestrator/base_orchestrator.py,
orchestrator/task_orchestrator.py) and proofs of the spec claims.

External collaborators (the OpenAI chat endpoint, `json.loads`, the remote
tool service) are modelled as explicit function parameters; Python
exceptions become `Except` values; Python `None` becomes `Option.none`.
-/

/-- A model-requested tool call's `function` payload: `tool_call.function.name`
and `tool_call.function.arguments` (the raw JSON string, `none` when the
attribute is `None`). -/
structure ToolFunction where
  name : String
  arguments : Option String
deriving DecidableEq

/-- A model-requested tool call, as handed to `_execute_tool_with_retries`:
an opaque call id plus the `function` payload. -/
structure ToolCall where
  id : String
  function : ToolFunction
deriving DecidableEq

/-- The value `json.loads` produces for a tool call's argument payload.
JSON itself is external to the core, so the parsed object is kept opaque:
`emptyDict` is the literal `{}` used when the payload is falsy, and
`parsed s` is whatever `json.loads s` returned on a successful parse. -/
inductive PyObj where
  | emptyDict : PyObj
  | parsed : String → PyObj
deriving DecidableEq

/-- Python truthiness of an optional string: `None` and `""` are falsy. -/
def truthyStr : Option String → Bool
  | none => false
  | some s => !(s == "")

/-- Python `str(x)` on an optional string: `None` renders as "None". -/
def pyStr : Option String → String
  | none => "None"
  | some s => s

/-- One entry of the conversation log: `Message` from message_system.py,
with fields role, content, tool_calls, tool_call_id. -/
structure Message where
  role : String
  content : Option String
  tool_calls : Option (List ToolCall)
  tool_call_id : Option String
deriving DecidableEq

/-- The conversation transcript: `MessageSystem` from message_system.py,
with its ordered message list and the auxiliary `last_request` field. -/
structure MessageSystem where
  messages : List Message
  last_request : Option String
deriving DecidableEq

namespace MessageSystem

/-- `MessageSystem.__init__`: empty message list, `last_request = None`. -/
def empty : MessageSystem :=
  { messages := [], last_request := none }

/-- `MessageSystem.clear`: drops all messages (keeps `last_request`). -/
def clear (ms : MessageSystem) : MessageSystem :=
  { ms with messages := [] }

/-- `MessageSystem.set_last_request`. -/
def set_last_request (ms : MessageSystem) (request : String) : MessageSystem :=
  { ms with last_request := some request }

/-- `MessageSystem.add_user_message`. -/
def add_user_message (ms : MessageSystem) (content : String) : MessageSystem :=
  { ms with messages :=
      ms.messages ++ [{ role := "user", content := some content,
                        tool_calls := none, tool_call_id := none }] }

/-- `MessageSystem.add_system_message`. -/
def add_system_message (ms : MessageSystem) (content : String) : MessageSystem :=
  { ms with messages :=
      ms.messages ++ [{ role := "system", content := some content,
                        tool_calls := none, tool_call_id := none }] }

/-- `MessageSystem.add_assistant_message`. -/
def add_assistant_message (ms : MessageSystem) (content : Option String)
    (tool_calls : Option (List ToolCall)) : MessageSystem :=
  { ms with messages :=
      ms.messages ++ [{ role := "assistant", content := content,
                        tool_calls := tool_calls, tool_call_id := none }] }

/-- `MessageSystem.add_tool_result`. -/
def add_tool_result (ms : MessageSystem) (tool_call_id : String)
    (result : String) : MessageSystem :=
  { ms with messages :=
      ms.messages ++ [{ role := "tool", content := some result,
                        tool_calls := none, tool_call_id := some tool_call_id }] }

/-- The `tool_calls=msg.tool_calls.copy() if msg.tool_calls else None`
argument of the copy built by `clone`: a falsy list (`None` or `[]`)
becomes `None`, a non-empty list is copied. -/
def cloneToolCalls : Option (List ToolCall) → Option (List ToolCall)
  | none => none
  | some [] => none
  | some (tc :: rest) => some (tc :: rest)

/-- The per-message copy built by `clone`'s loop: role, content and
tool_call_id are taken as-is, tool_calls goes through the Python-falsiness
normalization above. -/
def cloneMessage (m : Message) : Message :=
  { role := m.role, content := m.content,
    tool_calls := cloneToolCalls m.tool_calls,
    tool_call_id := m.tool_call_id }

/-- `MessageSystem.clone`: builds a fresh `MessageSystem()` and appends a
copy of each message in order.  Note the Python constructor leaves
`last_request = None` and the loop copies only `self.messages`, so the
clone's `last_request` is `None`; and an entry whose tool-call list is
empty comes back with `tool_calls = None`. -/
def clone (ms : MessageSystem) : MessageSystem :=
  { messages := ms.messages.map cloneMessage, last_request := none }

/-- Python truthiness of the `tool_calls` field: `None` and `[]` are falsy. -/
def truthyCalls : Option (List ToolCall) → Bool
  | none => false
  | some [] => false
  | some (_ :: _) => true

/-- The lines `get_conversation_summary` contributes for one message.
In this embedding every element of `tool_calls` carries a `function`
payload, so the `hasattr(msg.tool_calls[0], "function")` test is true. -/
def summaryLines (m : Message) : List String :=
  if m.role = "user" then
    ["USER: " ++ pyStr m.content]
  else if m.role = "assistant" then
    if truthyCalls m.tool_calls then
      let names := (m.tool_calls.getD []).map (fun tc => tc.function.name)
      let head := "ASSISTANT: Used tools: " ++ String.intercalate ", " names
      if truthyStr m.content then
        [head, "ASSISTANT: " ++ pyStr m.content]
      else
        [head]
    else
      ["ASSISTANT: " ++ pyStr m.content]
  else if m.role = "tool" then
    ["TOOL_RESULT: " ++ pyStr m.content]
  else if m.role = "system" then
    ["SYSTEM: " ++ pyStr m.content]
  else
    []

/-- `MessageSystem.get_conversation_summary`. -/
def get_conversation_summary (ms : MessageSystem) : String :=
  String.intercalate "\n" (ms.messages.map summaryLines).flatten

/-- `MessageSystem.estimate_token_count`: summary length divided by 4. -/
def estimate_token_count (ms : MessageSystem) : Nat :=
  (ms.get_conversation_summary).length / 4

/-- Content of the first user-role message (the Python loop breaks at the
first user message whatever its content is). -/
def firstUserContent : List Message → Option String
  | [] => none
  | m :: rest => if m.role = "user" then m.content else firstUserContent rest

/-- The summarization prompt built by `compact_conversation`. -/
def compactPrompt (conversation_text : String) (target_words : Nat) : String :=
  "Please create a concise summary of this task execution conversation.\n\nFULL CONVERSATION:\n"
    ++ conversation_text
    ++ "\n\nCreate a summary that includes:\n1. What has been accomplished so far\n2. Key results and findings\n3. Current status of the task\n4. Any important context needed to continue\n\nKeep the summary focused and under "
    ++ toString target_words
    ++ " words while preserving all essential information for task continuation.\n\nFormat the response as a clear, structured summary without any markdown or special formatting."

/-- `MessageSystem.compact_conversation`.  The summarization model call
(`llm_client.chat_completion` on the compaction prompt) is the external
parameter `llm`; `Except.error` is the model call raising.  The returned
`Bool` records whether a summarization model call was issued.  A raised
model-call exception is caught (`except Exception`) and degrades to
returning `self.clone()`, so the embedding is a total function. -/
def compact_conversation (llm : String → Except String String)
    (ms : MessageSystem) (target_words : Nat) : MessageSystem × Bool :=
  if ms.messages.length ≤ 2 then
    (ms.clone, false)
  else
    let r0 := ms.last_request
    let request_to_use := if truthyStr r0 then r0 else firstUserContent ms.messages
    if !(truthyStr request_to_use) then
      (ms.clone, false)
    else
      let conversation_text := ms.get_conversation_summary
      match llm (compactPrompt conversation_text target_words) with
      | Except.ok summary_content =>
          let compact_user_message :=
            "Task: " ++ request_to_use.getD ""
              ++ "\n\nProgress Summary:\n" ++ summary_content
              ++ "\n\nPlease continue with the task based on this progress summary."
          (MessageSystem.empty.add_user_message compact_user_message, true)
      | Except.error _ =>
          (ms.clone, true)

end MessageSystem

/-! ## Tool Dispatcher: `LLMClient._execute_tool_with_retries` -/

/-- The failure-record dictionary returned by `_execute_tool_with_retries`
(on a path that fails).  `attempts` is `none` on the parse-failure record,
which carries no "attempts" key. -/
structure ToolFailure where
  tool_name : String
  tool_args : PyObj
  result : String
  success : Bool
  attempts : Option Nat
deriving DecidableEq

/-- Output of one dispatcher invocation: the mutated transcript, the value
the Python function returns (`none` models the bare `return` on success,
`some r` a returned failure record), and how many times the remote
executor was invoked. -/
structure DispatchOut where
  ms : MessageSystem
  record : Option ToolFailure
  executorCalls : Nat
deriving DecidableEq

/-- The `while attempt < max_retries` loop of `_execute_tool_with_retries`:
`executor k` is the k-th attempt's remote invocation (`Except.error` is the
attempt raising).  Returns the final value of `attempt` together with either
the successful result string or the final `last_error` (`none` when no
attempt ran, matching Python's initial `last_error = None`). -/
def runAttempts (executor : Nat → Except String String) :
    Nat → Nat → Option String → Nat × Except (Option String) String
  | attempt, 0, lastErr => (attempt, Except.error lastErr)
  | attempt, fuel + 1, _ =>
      match executor (attempt + 1) with
      | Except.ok r => (attempt + 1, Except.ok r)
      | Except.error e => runAttempts executor (attempt + 1) fuel (some e)

/-- `LLMClient._execute_tool_with_retries`.  External parameters: `argsOk s`
tells whether `json.loads s` succeeds, `argErr s` is the parse exception's
text when it does not, and `executor args k` is the k-th attempt of
`self._tool_executor(tool_name, args)` against the remote tool service. -/
def execute_tool_with_retries (argsOk : String → Bool) (argErr : String → String)
    (executor : PyObj → Nat → Except String String)
    (ms : MessageSystem) (tool_call : ToolCall) (max_retries : Nat) : DispatchOut :=
  let parseOutcome : Except String PyObj :=
    match tool_call.function.arguments with
    | none => Except.ok PyObj.emptyDict
    | some s =>
        if s = "" then Except.ok PyObj.emptyDict
        else if argsOk s then Except.ok (PyObj.parsed s)
        else Except.error (argErr s)
  match parseOutcome with
  | Except.error parse_err =>
      { ms := ms,
        record := some
          { tool_name := tool_call.function.name,
            tool_args := PyObj.emptyDict,
            result := "Error: invalid tool arguments (" ++ parse_err ++ ")",
            success := false,
            attempts := none },
        executorCalls := 0 }
  | Except.ok tool_args =>
      match runAttempts (executor tool_args) 0 max_retries none with
      | (attempt, Except.ok result_str) =>
          { ms := ms.add_tool_result tool_call.id result_str,
            record := none,
            executorCalls := attempt }
      | (attempt, Except.error last_error) =>
          { ms := ms.add_tool_result tool_call.id "Tool execution failed",
            record := some
              { tool_name := tool_call.function.name,
                tool_args := tool_args,
                result := "Error: " ++ pyStr last_error,
                success := false,
                attempts := some attempt },
            executorCalls := attempt }

/-! ## Completion Cycle: `LLMClient.prompt_with_auto_tools` -/

/-- The model's first reply in one cycle (`response.choices[0].message`):
optional text content and optional tool-call list. -/
structure AssistantReply where
  content : Option String
  tool_calls : Option (List ToolCall)
deriving DecidableEq

/-- The dictionary `prompt_with_auto_tools` returns on the non-raising path. -/
structure PromptReturn where
  assistant_content : Option String
  assistant_tool_calls : Option (List ToolCall)
  tool_results : List (Option ToolFailure)
  has_tool_calls : Bool
deriving DecidableEq

deriving instance DecidableEq for Except

/-- Observable outcome of one `prompt_with_auto_tools` invocation: the
transcript after the call, the number of remote executor invocations
issued, and either the returned dictionary or the raised error's message. -/
structure PromptOut where
  ms : MessageSystem
  executorCalls : Nat
  outcome : Except String PromptReturn
deriving DecidableEq

/-- The sequential `for tool_call in assistant_message.tool_calls` loop:
dispatches each call in emission order with `max_retries=3`, threading the
transcript and collecting each call's returned value. -/
def runToolCalls (argsOk : String → Bool) (argErr : String → String)
    (execFn : String → PyObj → Nat → Except String String)
    (ms : MessageSystem) :
    List ToolCall → MessageSystem × List (Option ToolFailure) × Nat
  | [] => (ms, [], 0)
  | tc :: rest =>
      let out := execute_tool_with_retries argsOk argErr (execFn tc.function.name) ms tc 3
      let tail := runToolCalls argsOk argErr execFn out.ms rest
      (tail.1, out.record :: tail.2.1, out.executorCalls + tail.2.2)

/-- `LLMClient.prompt_with_auto_tools`.  External parameters: the argument
parser (`argsOk`/`argErr`), the registered tool executor (`none` when
`set_tool_executor` was never called; when `None` is invoked anyway Python
raises a `TypeError` inside the per-attempt `try`, modelled as an always-
failing attempt), the first model reply and the follow-up model reply's
content.  `tools` is the catalog argument (`[]` models both `None` and an
empty list, which Python truthiness identifies). -/
def prompt_with_auto_tools (argsOk : String → Bool) (argErr : String → String)
    (executor : Option (String → PyObj → Nat → Except String String))
    (reply : AssistantReply) (followUpContent : Option String)
    (ms : MessageSystem) (tools : List String) : PromptOut :=
  if tools ≠ [] ∧ executor.isNone then
    { ms := ms, executorCalls := 0,
      outcome := Except.error "Tool executor not set. Call set_tool_executor() first." }
  else
    let stored_calls := if MessageSystem.truthyCalls reply.tool_calls
      then reply.tool_calls else none
    let ms1 := ms.add_assistant_message reply.content stored_calls
    if MessageSystem.truthyCalls reply.tool_calls then
      let execFn := match executor with
        | some f => f
        | none => fun _ _ _ => Except.error "TypeError: NoneType object is not callable"
      let ran := runToolCalls argsOk argErr execFn ms1 (reply.tool_calls.getD [])
      let ms2 := ran.1.add_assistant_message followUpContent none
      { ms := ms2, executorCalls := ran.2.2,
        outcome := Except.ok
          { assistant_content := reply.content,
            assistant_tool_calls := reply.tool_calls,
            tool_results := ran.2.1,
            has_tool_calls := true } }
    else
      { ms := ms1, executorCalls := 0,
        outcome := Except.ok
          { assistant_content := reply.content,
            assistant_tool_calls := reply.tool_calls,
            tool_results := [],
            has_tool_calls := false } }

/-! ## Progress Evaluator: the response-parsing tail of
`BaseOrchestrator.evaluate_progress` -/

/-- The evaluation dictionary: accomplished, progress_percentage, next_step,
suggested_tool, is_complete, reasoning. -/
structure EvalRec where
  accomplished : String
  progress_percentage : Nat
  next_step : String
  suggested_tool : Option String
  is_complete : Bool
  reasoning : String
deriving DecidableEq

/-- Numeric value of a digit run (`int(match.group(1))`). -/
def digitsToNat (l : List Char) : Nat :=
  l.foldl (fun n c => n * 10 + (c.toNat - 48)) 0

/-- Does `\d+%` match at the head of the character list?  A greedy digit run
followed by a literal percent sign; when the maximal run is not followed by
a percent sign no shorter run can be (the next character is a digit), so
greedy matching needs no backtracking. -/
def pctMatchAt (l : List Char) : Option Nat :=
  let run := l.takeWhile Char.isDigit
  if run.isEmpty then none
  else
    match l.dropWhile Char.isDigit with
    | '%' :: _ => some (digitsToNat run)
    | _ => none

/-- `re.search(r"(\d+)%", content)`: leftmost match, trying each start
position in turn. -/
def findPercent : List Char → Option Nat
  | [] => none
  | c :: rest =>
      match pctMatchAt (c :: rest) with
      | some p => some p
      | none => findPercent rest

/-- Does `needle` occur as a prefix of `hay`? -/
def startsWithChars : List Char → List Char → Bool
  | [], _ => true
  | _ :: _, [] => false
  | a :: as, b :: bs => a == b && startsWithChars as bs

/-- Python's substring test `needle in hay`, at the character level. -/
def hasSubChars (needle : List Char) : List Char → Bool
  | [] => needle.isEmpty
  | c :: rest => startsWithChars needle (c :: rest) || hasSubChars needle rest

/-- The default record synthesized for an empty or whitespace-only
evaluation response. -/
def emptyEvalRec : EvalRec :=
  { accomplished := "No evaluation content received",
    progress_percentage := 10,
    next_step := "Continue with original request",
    suggested_tool := none,
    is_complete := false,
    reasoning := "Empty evaluation response" }

/-- The heuristic fallback record built when `json.loads` fails on the
response content: completion keywords, then a `<digits>%` scan, then 20%. -/
def fallbackEvalRec (jsonErr : String) (content : String) : EvalRec :=
  let lower := content.data.map Char.toLower
  let kw := hasSubChars "complete".data lower || hasSubChars "done".data lower
  let pct : Nat × Bool :=
    if kw then (100, true)
    else if content.data.contains '%' then
      match findPercent content.data with
      | some p => (p, false)
      | none => (20, false)
    else (20, false)
  { accomplished := if content.data.length > 100
      then String.mk (content.data.take 100) ++ "..." else content,
    progress_percentage := pct.1,
    next_step := "Continue with task execution",
    suggested_tool := none,
    is_complete := pct.2,
    reasoning := "Parsed from text response (JSON failed: " ++ jsonErr ++ ")" }

/-- The parsing tail of `BaseOrchestrator.evaluate_progress`, from
`content = response.choices[0].message.content` on.  `jsonParse` models
`json.loads` on the content (`some` is a successful strict parse of the
expected shape, `none` a `JSONDecodeError` whose text is `jsonErr`).
Total: malformed content never raises. -/
def parse_evaluation (jsonParse : String → Option EvalRec) (jsonErr : String)
    (content : String) : EvalRec :=
  if content = "" ∨ content.data.all Char.isWhitespace then
    emptyEvalRec
  else
    match jsonParse content with
    | some r => r
    | none => fallbackEvalRec jsonErr content

/-! ## Execution Loop: `TaskOrchestrator.execute_task` with
`BaseOrchestrator._execute_iteration` inlined (no `should_stop`, so both
interrupt checkpoints are skipped).  The Progress Evaluator and the
Completion Cycle are abstracted to counted events: `evals k` is the record
the k-th evaluator call returns, and `cycles` counts the
`prompt_with_auto_tools` rounds run. -/

/-- Outcome of one `execute_task` run: the returned string, how many
evaluator calls were made, and how many Completion Cycles ran. -/
structure LoopOut where
  result : String
  evalCalls : Nat
  cycles : Nat
deriving DecidableEq

/-- The `while iteration < max_iterations` loop.  `iteration` is the loop
counter (also the number of evaluator calls already made, since the
no-`should_stop` iteration makes exactly one); `fuel` is
`max_iterations - iteration`. -/
def executeTaskLoop (evals : Nat → EvalRec) :
    Nat → Nat → Nat → LoopOut
  | iteration, 0, cycles =>
      let final_eval := evals (iteration + 1)
      { result := "Task partially completed ("
          ++ toString final_eval.progress_percentage ++ "%): "
          ++ final_eval.accomplished,
        evalCalls := iteration + 1,
        cycles := cycles }
  | iteration, fuel + 1, cycles =>
      let evaluation := evals (iteration + 1)
      if evaluation.is_complete then
        { result := evaluation.accomplished,
          evalCalls := iteration + 1,
          cycles := cycles }
      else
        executeTaskLoop evals (iteration + 1) fuel (cycles + 1)

/-- `TaskOrchestrator.execute_task` after `_prepare_task_execution`:
iterate up to `max_iterations`, returning the accomplished text as soon as
an evaluation reports `is_complete`, else one final evaluation feeds
`_handle_max_iterations`. -/
def execute_task (evals : Nat → EvalRec) (max_iterations : Nat) : LoopOut :=
  executeTaskLoop evals 0 max_iterations 0

/-! ## Concrete fixtures used by witnesses and counterexamples -/

/-- A user message fixture. -/
def mUser : Message :=
  { role := "user", content := some "Find the weather in Shanghai",
    tool_calls := none, tool_call_id := none }

/-- An assistant message fixture. -/
def mAsst : Message :=
  { role := "assistant", content := some "Searching for the weather now",
    tool_calls := none, tool_call_id := none }

/-- A tool-result message fixture. -/
def mTool : Message :=
  { role := "tool", content := some "result text",
    tool_calls := none, tool_call_id := some "call_1" }

/-- A system message fixture. -/
def mSys : Message :=
  { role := "system", content := some "You are a browser agent",
    tool_calls := none, tool_call_id := none }

/-- A three-entry transcript with its last-user-request field set. -/
def msThree : MessageSystem :=
  { messages := [mUser, mAsst, mTool],
    last_request := some "Find the weather in Shanghai" }

/-- A two-entry transcript. -/
def msTwo : MessageSystem :=
  { messages := [mUser, mAsst],
    last_request := some "Find the weather in Shanghai" }

/-- A three-entry transcript with no user entry and no last-user-request. -/
def msNoUser : MessageSystem :=
  { messages := [mSys, mAsst, mTool], last_request := none }

/-- An assistant message fixture carrying an empty tool-call list (the
degenerate value Python's clone normalizes to `None`). -/
def mAsstEmptyCalls : Message :=
  { role := "assistant", content := some "thinking",
    tool_calls := some [], tool_call_id := none }

/-- A two-entry transcript containing the empty-tool-call-list entry. -/
def msTwoEmptyCalls : MessageSystem :=
  { messages := [mUser, mAsstEmptyCalls],
    last_request := some "Find the weather in Shanghai" }

/-- A three-entry transcript containing the empty-tool-call-list entry. -/
def msThreeEmptyCalls : MessageSystem :=
  { messages := [mUser, mAsstEmptyCalls, mTool],
    last_request := some "Find the weather in Shanghai" }

/-- A three-entry transcript with no user entry, no last-user-request, and
an empty-tool-call-list entry. -/
def msNoUserEmptyCalls : MessageSystem :=
  { messages := [mSys, mAsstEmptyCalls, mTool], last_request := none }

/-! ## Compaction claims -/

/-- Helper: the per-message copy is the identity on a message that does not
carry an empty tool-call list. -/
theorem cloneMessage_eq_self (m : Message) (h : m.tool_calls ≠ some []) :
    MessageSystem.cloneMessage m = m := by
  obtain ⟨role, content, tool_calls, tool_call_id⟩ := m
  unfold MessageSystem.cloneMessage MessageSystem.cloneToolCalls
  cases tool_calls with
  | none => rfl
  | some l =>
      cases l with
      | nil => exact absurd rfl h
      | cons tc rest => rfl

/-- Helper: the clone's message loop is the identity on a message list none
of whose entries carries an empty tool-call list. -/
theorem map_cloneMessage_eq_self (l : List Message)
    (h : ∀ m ∈ l, m.tool_calls ≠ some []) :
    l.map MessageSystem.cloneMessage = l := by
  induction l with
  | nil => rfl
  | cons m rest ih =>
      rw [List.map_cons]
      rw [cloneMessage_eq_self m (h m (List.mem_cons_self m rest))]
      rw [ih fun x hx => h x (List.mem_cons_of_mem m hx)]

/-- C8 counterexample: on a two-entry transcript containing an assistant
entry with an empty tool-call list, compaction's clone returns that entry
with the tool-calls field unset, so the entries are not identical by
content as the claim states. -/
theorem C8_empty_toolcalls_counterexample :
    msTwoEmptyCalls.messages.length ≤ 2 ∧
    (MessageSystem.compact_conversation (fun _ => Except.error "model down")
        msTwoEmptyCalls 5000).1.messages ≠ msTwoEmptyCalls.messages :=
  ⟨by decide, by decide⟩

/-- C8 (amended): compacting a transcript with two or fewer entries issues
no summarization model call and returns the per-entry Python copy of the
entry sequence in order (which preserves role, content and correlation id,
and maps only an empty tool-call list to an unset field); in particular
the entries are identical by content whenever no entry carries an empty
tool-call list. -/
theorem C8_compact_short_identity (llm : String → Except String String)
    (ms : MessageSystem) (target_words : Nat)
    (h : ms.messages.length ≤ 2) :
    (MessageSystem.compact_conversation llm ms target_words).1.messages
        = ms.messages.map MessageSystem.cloneMessage ∧
    (MessageSystem.compact_conversation llm ms target_words).2 = false ∧
    ((∀ m ∈ ms.messages, m.tool_calls ≠ some []) →
      (MessageSystem.compact_conversation llm ms target_words).1.messages = ms.messages) := by
  unfold MessageSystem.compact_conversation
  rw [if_pos h]
  exact ⟨rfl, rfl, fun hne => map_cloneMessage_eq_self ms.messages hne⟩

/-- C8 witness: the two-entry fixture (no empty tool-call lists) is
returned with identical entries and no model call. -/
theorem C8_compact_short_identity_witness :
    (msTwo.messages.length ≤ 2 ∧ (∀ m ∈ msTwo.messages, m.tool_calls ≠ some [])) ∧
    ((MessageSystem.compact_conversation (fun _ => Except.error "model down") msTwo 5000).1.messages
        = msTwo.messages ∧
     (MessageSystem.compact_conversation (fun _ => Except.error "model down") msTwo 5000).2 = false) :=
  ⟨⟨by decide, by decide⟩,
   (C8_compact_short_identity (fun _ => Except.error "model down") msTwo 5000 (by decide)).2.2
      (by decide),
   (C8_compact_short_identity (fun _ => Except.error "model down") msTwo 5000 (by decide)).2.1⟩

/-- C7 counterexample: on a three-entry transcript containing an assistant
entry with an empty tool-call list, the fallback clone returns that entry
with the tool-calls field unset, so the fallback's entries are not
identical by content as the claim states. -/
theorem C7_empty_toolcalls_counterexample :
    2 < msThreeEmptyCalls.messages.length ∧
    (MessageSystem.compact_conversation (fun _ => Except.error "boom")
        msThreeEmptyCalls 5000).1.messages ≠ msThreeEmptyCalls.messages :=
  ⟨by decide, by decide⟩

/-- C7 (amended): on a transcript with more than two entries, if the
summarization model call raises then the exception does not propagate (the
embedding is a total function) and compaction returns the order-preserving
per-entry Python copy of the transcript (which preserves role, content and
correlation id, and maps only an empty tool-call list to an unset field);
the entries are identical by content whenever no entry carries an empty
tool-call list. -/
theorem C7_compact_error_fallback (e : String) (ms : MessageSystem)
    (target_words : Nat) (h : 2 < ms.messages.length) :
    (MessageSystem.compact_conversation (fun _ => Except.error e) ms target_words).1.messages
        = ms.messages.map MessageSystem.cloneMessage ∧
    ((∀ m ∈ ms.messages, m.tool_calls ≠ some []) →
      (MessageSystem.compact_conversation (fun _ => Except.error e) ms target_words).1.messages
        = ms.messages) := by
  have hbase : (MessageSystem.compact_conversation (fun _ => Except.error e) ms
      target_words).1.messages = ms.messages.map MessageSystem.cloneMessage := by
    unfold MessageSystem.compact_conversation
    rw [if_neg (by omega)]
    dsimp only
    split <;> split <;> rfl
  exact ⟨hbase, fun hne => hbase.trans (map_cloneMessage_eq_self ms.messages hne)⟩

/-- C7 witness: the three-entry fixture (no empty tool-call lists) with an
always-raising model call comes back with identical entries. -/
theorem C7_compact_error_fallback_witness :
    (2 < msThree.messages.length ∧ (∀ m ∈ msThree.messages, m.tool_calls ≠ some [])) ∧
    (MessageSystem.compact_conversation (fun _ => Except.error "boom") msThree 5000).1.messages
      = msThree.messages :=
  ⟨⟨by decide, by decide⟩,
   (C7_compact_error_fallback "boom" msThree 5000 (by decide)).2 (by decide)⟩

/-- Helper: a message list without a user-role entry yields no first-user
content. -/
theorem firstUserContent_of_no_user (l : List Message)
    (h : ∀ m ∈ l, m.role ≠ "user") : MessageSystem.firstUserContent l = none := by
  induction l with
  | nil => rfl
  | cons m rest ih =>
      unfold MessageSystem.firstUserContent
      rw [if_neg (h m (List.mem_cons_self m rest))]
      exact ih fun x hx => h x (List.mem_cons_of_mem m hx)

/-- C10 counterexample: on a no-user, no-last-request transcript containing
an assistant entry with an empty tool-call list, the returned copy carries
that entry with the tool-calls field unset, so the entries are not
identical by content as the claim states. -/
theorem C10_empty_toolcalls_counterexample :
    (2 < msNoUserEmptyCalls.messages.length ∧ msNoUserEmptyCalls.last_request = none ∧
      (∀ m ∈ msNoUserEmptyCalls.messages, m.role ≠ "user")) ∧
    (MessageSystem.compact_conversation (fun _ => Except.ok "s") msNoUserEmptyCalls 5000).1.messages
      ≠ msNoUserEmptyCalls.messages :=
  ⟨⟨by decide, by decide, by decide⟩, by decide⟩

/-- C10 (amended): on a transcript with more than two entries, an unset
last-user-request field and no user-role entry, compaction issues no
summarization model call and returns the order-preserving per-entry Python
copy of the transcript (which preserves role, content and correlation id,
and maps only an empty tool-call list to an unset field); the entries are
identical by content whenever no entry carries an empty tool-call list. -/
theorem C10_compact_no_request_no_user (llm : String → Except String String)
    (ms : MessageSystem) (target_words : Nat)
    (h2 : 2 < ms.messages.length) (hreq : ms.last_request = none)
    (huser : ∀ m ∈ ms.messages, m.role ≠ "user") :
    (MessageSystem.compact_conversation llm ms target_words).1.messages
        = ms.messages.map MessageSystem.cloneMessage ∧
    (MessageSystem.compact_conversation llm ms target_words).2 = false ∧
    ((∀ m ∈ ms.messages, m.tool_calls ≠ some []) →
      (MessageSystem.compact_conversation llm ms target_words).1.messages = ms.messages) := by
  have h3 : MessageSystem.firstUserContent ms.messages = none :=
    firstUserContent_of_no_user ms.messages huser
  have hbase : MessageSystem.compact_conversation llm ms target_words = (ms.clone, false) := by
    unfold MessageSystem.compact_conversation
    rw [if_neg (by omega)]
    simp [hreq, h3, truthyStr]
  rw [hbase]
  exact ⟨rfl, rfl, fun hne => map_cloneMessage_eq_self ms.messages hne⟩

/-- C10 witness: the no-user fixture (no empty tool-call lists) is copied
with identical entries and without a model call. -/
theorem C10_compact_no_request_no_user_witness :
    (2 < msNoUser.messages.length ∧ msNoUser.last_request = none ∧
      (∀ m ∈ msNoUser.messages, m.tool_calls ≠ some [])) ∧
    ((MessageSystem.compact_conversation (fun _ => Except.ok "s") msNoUser 5000).1.messages
        = msNoUser.messages ∧
     (MessageSystem.compact_conversation (fun _ => Except.ok "s") msNoUser 5000).2 = false) :=
  ⟨⟨by decide, by decide, by decide⟩,
   (C10_compact_no_request_no_user (fun _ => Except.ok "s") msNoUser 5000
      (by decide) (by decide) (by decide)).2.2 (by decide),
   (C10_compact_no_request_no_user (fun _ => Except.ok "s") msNoUser 5000
      (by decide) (by decide) (by decide)).2.1⟩

/-- C2: the claim that compaction preserves the last-user-request field
fails on both paths: the success path builds a fresh `MessageSystem()`
(whose `last_request` is `None`) and the fallback path returns
`self.clone()`, which also never copies `last_request`. -/
theorem C2_last_request_not_preserved :
    msThree.last_request = some "Find the weather in Shanghai" ∧
    (MessageSystem.compact_conversation (fun _ => Except.ok "summary text") msThree 5000).1.last_request
      = none ∧
    (MessageSystem.compact_conversation (fun _ => Except.error "model down") msThree 5000).1.last_request
      = none :=
  ⟨rfl, by decide, by decide⟩

/-! ## Tool Dispatcher claims -/

/-- Helper: when every attempt raises, the retry loop runs through its whole
budget and ends with the last attempt's error. -/
theorem runAttempts_all_fail (executor : Nat → Except String String)
    (errs : Nat → String) (hfail : ∀ k, executor k = Except.error (errs k)) :
    ∀ (fuel attempt : Nat) (lastErr : Option String),
      runAttempts executor attempt (fuel + 1) lastErr
        = (attempt + fuel + 1, Except.error (some (errs (attempt + fuel + 1)))) := by
  intro fuel
  induction fuel with
  | zero =>
      intro attempt lastErr
      unfold runAttempts
      rw [hfail (attempt + 1)]
      unfold runAttempts
      rfl
  | succ n ih =>
      intro attempt lastErr
      unfold runAttempts
      rw [hfail (attempt + 1)]
      dsimp only
      rw [ih (attempt + 1) (some (errs (attempt + 1)))]
      rw [show attempt + 1 + n + 1 = attempt + (n + 1) + 1 from by omega]

/-- Helper: the retry loop started at attempt 0 with a positive budget
makes exactly `fuel` attempts and reports the last error. -/
theorem runAttempts_all_fail_zero (executor : Nat → Except String String)
    (errs : Nat → String) (hfail : ∀ k, executor k = Except.error (errs k))
    (fuel : Nat) (h : 0 < fuel) :
    runAttempts executor 0 fuel none
      = (fuel, Except.error (some (errs fuel))) := by
  cases fuel with
  | zero => omega
  | succ n =>
      rw [runAttempts_all_fail executor errs hfail n 0 none]
      rw [show 0 + n + 1 = n + 1 from by omega]

/-- C5: a tool call whose arguments parse and whose every remote invocation
raises is attempted exactly `max_retries` times, appends exactly one
tool-result entry with the generic string "Tool execution failed", and
returns a failure record carrying the last raw error, the attempt count,
the tool name and the parsed arguments. -/
theorem C5_retry_exhaustion (argsOk : String → Bool) (argErr : String → String)
    (executor : PyObj → Nat → Except String String) (errs : Nat → String)
    (ms : MessageSystem) (tc : ToolCall) (s : String) (max_retries : Nat)
    (hargs : tc.function.arguments = some s) (hs : ¬(s = "")) (hok : argsOk s = true)
    (hfail : ∀ args k, executor args k = Except.error (errs k))
    (hmax : 0 < max_retries) :
    (execute_tool_with_retries argsOk argErr executor ms tc max_retries).executorCalls
        = max_retries ∧
    (execute_tool_with_retries argsOk argErr executor ms tc max_retries).ms.messages
        = ms.messages ++ [{ role := "tool", content := some "Tool execution failed",
                            tool_calls := none, tool_call_id := some tc.id }] ∧
    (execute_tool_with_retries argsOk argErr executor ms tc max_retries).record
        = some { tool_name := tc.function.name, tool_args := PyObj.parsed s,
                 result := "Error: " ++ errs max_retries, success := false,
                 attempts := some max_retries } := by
  unfold execute_tool_with_retries
  simp only [hargs]
  rw [if_neg hs]
  rw [hok]
  simp only [if_pos]
  rw [runAttempts_all_fail_zero (executor (PyObj.parsed s)) errs
        (fun k => hfail (PyObj.parsed s) k) max_retries hmax]
  exact ⟨rfl, rfl, rfl⟩

/-- C5 witness: a concrete always-raising executor with the default budget
of three attempts. -/
theorem C5_retry_exhaustion_witness :
    (execute_tool_with_retries (fun _ => true) (fun _ => "perr")
        (fun _ k => Except.error ("attempt " ++ toString k ++ " failed")) msThree
        { id := "call_7", function := { name := "browser_click", arguments := some "valid" } }
        3).executorCalls = 3 ∧
    (execute_tool_with_retries (fun _ => true) (fun _ => "perr")
        (fun _ k => Except.error ("attempt " ++ toString k ++ " failed")) msThree
        { id := "call_7", function := { name := "browser_click", arguments := some "valid" } }
        3).ms.messages
      = msThree.messages ++ [{ role := "tool", content := some "Tool execution failed",
                               tool_calls := none, tool_call_id := some "call_7" }] ∧
    (execute_tool_with_retries (fun _ => true) (fun _ => "perr")
        (fun _ k => Except.error ("attempt " ++ toString k ++ " failed")) msThree
        { id := "call_7", function := { name := "browser_click", arguments := some "valid" } }
        3).record
      = some { tool_name := "browser_click", tool_args := PyObj.parsed "valid",
               result := "Error: attempt 3 failed", success := false,
               attempts := some 3 } :=
  C5_retry_exhaustion (fun _ => true) (fun _ => "perr")
    (fun _ k => Except.error ("attempt " ++ toString k ++ " failed"))
    (fun k => "attempt " ++ toString k ++ " failed") msThree
    { id := "call_7", function := { name := "browser_click", arguments := some "valid" } }
    "valid" 3 rfl (by decide) rfl (fun _ _ => rfl) (by decide)

/-- A tool call whose argument payload is not valid JSON. -/
def tcBadArgs : ToolCall :=
  { id := "call_9",
    function := { name := "browser_click", arguments := some "not valid json" } }

/-- C1: evidence for the code bug — on an argument-payload parse failure the
dispatcher returns a failure record but appends NO tool-result entry to the
transcript, leaving the tool call dangling (the spec's invariant demands
exactly one appended entry carrying an error message). -/
theorem C1_parse_failure_appends_no_result :
    (execute_tool_with_retries (fun _ => false)
        (fun _ => "Expecting value: line 1 column 1 (char 0)")
        (fun _ _ => Except.ok "ok") msThree tcBadArgs 3).ms = msThree ∧
    (execute_tool_with_retries (fun _ => false)
        (fun _ => "Expecting value: line 1 column 1 (char 0)")
        (fun _ _ => Except.ok "ok") msThree tcBadArgs 3).record
      = some { tool_name := "browser_click", tool_args := PyObj.emptyDict,
               result := "Error: invalid tool arguments (Expecting value: line 1 column 1 (char 0))",
               success := false, attempts := none } :=
  ⟨rfl, by decide⟩

/-! ## Completion Cycle claims -/

/-- Does this call's argument payload parse (Python: the payload is falsy,
or `json.loads` succeeds on it)? -/
def argsParseOk (argsOk : String → Bool) (tc : ToolCall) : Bool :=
  match tc.function.arguments with
  | none => true
  | some s => (s == "") || argsOk s

/-- Helper: a dispatched call whose arguments parse appends exactly one
entry, whatever the attempts do. -/
theorem execute_tool_appends_one (argsOk : String → Bool) (argErr : String → String)
    (executor : PyObj → Nat → Except String String) (ms : MessageSystem)
    (tc : ToolCall) (n : Nat) (h : argsParseOk argsOk tc = true) :
    (execute_tool_with_retries argsOk argErr executor ms tc n).ms.messages.length
      = ms.messages.length + 1 := by
  unfold execute_tool_with_retries
  unfold argsParseOk at h
  cases hargs : tc.function.arguments with
  | none =>
      dsimp only
      rcases hr : runAttempts (executor PyObj.emptyDict) 0 n none with ⟨att, res⟩
      cases res <;>
        simp [hr, MessageSystem.add_tool_result]
  | some s =>
      rw [hargs] at h
      dsimp only
      by_cases hs : s = ""
      · rw [if_pos hs]
        rcases hr : runAttempts (executor PyObj.emptyDict) 0 n none with ⟨att, res⟩
        cases res <;>
          simp [hr, MessageSystem.add_tool_result]
      · rw [if_neg hs]
        have hok : argsOk s = true := by
          simp [hs] at h
          exact h
        rw [hok]
        simp only [if_pos]
        rcases hr : runAttempts (executor (PyObj.parsed s)) 0 n none with ⟨att, res⟩
        cases res <;>
          simp [hr, MessageSystem.add_tool_result]

/-- Helper: the sequential tool loop appends exactly one entry per call when
every call's arguments parse. -/
theorem runToolCalls_length (argsOk : String → Bool) (argErr : String → String)
    (execFn : String → PyObj → Nat → Except String String) :
    ∀ (calls : List ToolCall) (ms : MessageSystem),
      (∀ tc ∈ calls, argsParseOk argsOk tc = true) →
      (runToolCalls argsOk argErr execFn ms calls).1.messages.length
        = ms.messages.length + calls.length := by
  intro calls
  induction calls with
  | nil => intro ms _; rfl
  | cons tc rest ih =>
      intro ms h
      unfold runToolCalls
      dsimp only
      rw [ih _ fun x hx => h x (List.mem_cons_of_mem tc hx)]
      rw [execute_tool_appends_one argsOk argErr (execFn tc.function.name) ms tc 3
            (h tc (List.mem_cons_self tc rest))]
      simp [Nat.add_comm, Nat.add_assoc, Nat.add_left_comm]

/-- A no-tool-call model reply fixture. -/
def replyNoTools : AssistantReply :=
  { content := some "All done here", tool_calls := none }

/-- A well-formed tool call fixture whose arguments parse. -/
def tcGood : ToolCall :=
  { id := "call_2", function := { name := "browser_open", arguments := some "valid" } }

/-- A model reply fixture requesting exactly one tool call. -/
def replyOneCall : AssistantReply :=
  { content := none, tool_calls := some [tcGood] }

/-- C3 counterexample: the claimed growth figures fail on concrete runs —
with zero tool calls the transcript grows by 1 entry (not 2), and with one
successfully executed tool call it grows by 3 entries (not 2 + 2*1 = 4). -/
theorem C3_growth_counterexample :
    (prompt_with_auto_tools (fun _ => true) (fun _ => "e")
        (some fun _ _ _ => Except.ok "ok") replyNoTools (some "follow")
        msThree ["browser_open"]).ms.messages.length
      ≠ msThree.messages.length + 2 ∧
    (prompt_with_auto_tools (fun _ => true) (fun _ => "e")
        (some fun _ _ _ => Except.ok "ok") replyOneCall (some "follow")
        msThree ["browser_open"]).ms.messages.length
      ≠ msThree.messages.length + 2 + 2 * 1 :=
  ⟨by decide, by decide⟩

/-- C3 (amended): with the tool executor registered, one completion cycle
grows the transcript by exactly 1 entry when the reply has no tool calls
(the assistant entry), and by exactly 2 + N entries when the reply carries
N tool calls each of whose argument payloads parses (one assistant entry,
N tool-result entries, one follow-up assistant entry). -/
theorem C3_transcript_growth (argsOk : String → Bool) (argErr : String → String)
    (f : String → PyObj → Nat → Except String String)
    (reply : AssistantReply) (followUpContent : Option String)
    (ms : MessageSystem) (tools : List String) :
    (MessageSystem.truthyCalls reply.tool_calls = false →
      (prompt_with_auto_tools argsOk argErr (some f) reply followUpContent
          ms tools).ms.messages.length
        = ms.messages.length + 1) ∧
    (MessageSystem.truthyCalls reply.tool_calls = true →
      (∀ tc ∈ reply.tool_calls.getD [], argsParseOk argsOk tc = true) →
      (prompt_with_auto_tools argsOk argErr (some f) reply followUpContent
          ms tools).ms.messages.length
        = ms.messages.length + 2 + (reply.tool_calls.getD []).length) := by
  have hguard : ¬(tools ≠ [] ∧ (Option.isNone (some f)) = true) := by simp
  constructor
  · intro h
    unfold prompt_with_auto_tools
    rw [if_neg hguard]
    dsimp only
    rw [if_neg (by rw [h]; exact Bool.false_ne_true)]
    simp [MessageSystem.add_assistant_message]
  · intro h hparse
    unfold prompt_with_auto_tools
    rw [if_neg hguard]
    dsimp only
    rw [if_pos h]
    dsimp only
    simp only [MessageSystem.add_assistant_message, List.length_append]
    rw [runToolCalls_length argsOk argErr f (reply.tool_calls.getD []) _ hparse]
    simp [MessageSystem.add_assistant_message]
    omega

/-- C3 witness: one successfully executed tool call grows the three-entry
fixture transcript to six entries (growth 2 + 1). -/
theorem C3_transcript_growth_witness :
    (∀ tc ∈ (replyOneCall.tool_calls).getD [], argsParseOk (fun _ => true) tc = true) ∧
    (prompt_with_auto_tools (fun _ => true) (fun _ => "e")
        (some fun _ _ _ => Except.ok "ok") replyOneCall (some "follow")
        msThree ["browser_open"]).ms.messages.length
      = msThree.messages.length + 2 + ((replyOneCall.tool_calls).getD []).length :=
  ⟨by decide,
   (C3_transcript_growth (fun _ => true) (fun _ => "e") (fun _ _ _ => Except.ok "ok")
      replyOneCall (some "follow") msThree ["browser_open"]).2 (by decide) (by decide)⟩

/-- C9: when the reply carries tool calls, no executor is registered, and
the tool catalog was passed (as it must be for the model to request tools),
the cycle raises the configuration error before any model round-trip or
tool execution: the transcript is untouched and zero executor invocations
are issued. -/
theorem C9_fail_fast_executor_unset (argsOk : String → Bool) (argErr : String → String)
    (reply : AssistantReply) (followUpContent : Option String)
    (ms : MessageSystem) (tools : List String)
    (hconf : MessageSystem.truthyCalls reply.tool_calls = true → tools ≠ [])
    (hcalls : MessageSystem.truthyCalls reply.tool_calls = true) :
    prompt_with_auto_tools argsOk argErr none reply followUpContent ms tools
      = { ms := ms, executorCalls := 0,
          outcome := Except.error "Tool executor not set. Call set_tool_executor() first." } := by
  unfold prompt_with_auto_tools
  rw [if_pos ⟨hconf hcalls, rfl⟩]

/-- C9 witness: a one-tool-call reply with no registered executor fails
fast on the three-entry fixture. -/
theorem C9_fail_fast_executor_unset_witness :
    MessageSystem.truthyCalls replyOneCall.tool_calls = true ∧
    prompt_with_auto_tools (fun _ => true) (fun _ => "e") none replyOneCall
        (some "follow") msThree ["browser_open"]
      = { ms := msThree, executorCalls := 0,
          outcome := Except.error "Tool executor not set. Call set_tool_executor() first." } :=
  ⟨by decide,
   C9_fail_fast_executor_unset (fun _ => true) (fun _ => "e") replyOneCall
     (some "follow") msThree ["browser_open"] (fun _ => by decide) (by decide)⟩

/-! ## Progress Evaluator claim -/

/-- C4 counterexample: the empty-response default's reasoning string is
"Empty evaluation response" (capitalized), not the claimed lowercase
"empty evaluation response". -/
theorem C4_empty_reasoning_counterexample :
    (parse_evaluation (fun _ => none) "Expecting value" "").reasoning
      = "Empty evaluation response" ∧
    ¬((parse_evaluation (fun _ => none) "Expecting value" "").reasoning
      = "empty evaluation response") :=
  ⟨rfl, by decide⟩

/-- C4 (amended): evaluation-response parsing is total and, on an empty or
whitespace-only response, yields the 10%/incomplete default whose reasoning
is "Empty evaluation response"; on a non-empty response that fails strict
JSON parsing it yields 100%/complete when the lowercased text contains
"complete" or "done", else the percentage of the first digits-percent
pattern (incomplete), else 20% (incomplete). -/
theorem C4_parse_policy (jsonParse : String → Option EvalRec)
    (jsonErr content : String) (hfail : jsonParse content = none) :
    ((content = "" ∨ content.data.all Char.isWhitespace) →
        parse_evaluation jsonParse jsonErr content = emptyEvalRec) ∧
    (¬(content = "" ∨ content.data.all Char.isWhitespace) →
      ((hasSubChars "complete".data (content.data.map Char.toLower)
          || hasSubChars "done".data (content.data.map Char.toLower)) = true →
        (parse_evaluation jsonParse jsonErr content).progress_percentage = 100 ∧
        (parse_evaluation jsonParse jsonErr content).is_complete = true) ∧
      (∀ p : Nat,
        (hasSubChars "complete".data (content.data.map Char.toLower)
          || hasSubChars "done".data (content.data.map Char.toLower)) = false →
        content.data.contains '%' = true →
        findPercent content.data = some p →
        (parse_evaluation jsonParse jsonErr content).progress_percentage = p ∧
        (parse_evaluation jsonParse jsonErr content).is_complete = false) ∧
      ((hasSubChars "complete".data (content.data.map Char.toLower)
          || hasSubChars "done".data (content.data.map Char.toLower)) = false →
        findPercent content.data = none →
        (parse_evaluation jsonParse jsonErr content).progress_percentage = 20 ∧
        (parse_evaluation jsonParse jsonErr content).is_complete = false)) := by
  constructor
  · intro he
    unfold parse_evaluation
    rw [if_pos he]
  · intro hne
    have hbase : parse_evaluation jsonParse jsonErr content
        = fallbackEvalRec jsonErr content := by
      unfold parse_evaluation
      rw [if_neg hne, hfail]
    refine ⟨?_, ?_, ?_⟩
    · intro hkw
      rw [hbase]
      unfold fallbackEvalRec
      simp [hkw]
    · intro p hkw hpc hfp
      rw [hbase]
      unfold fallbackEvalRec
      have hmem : '%' ∈ content.data := by simpa using hpc
      simp [hkw, hfp, hmem]
    · intro hkw hfp
      rw [hbase]
      unfold fallbackEvalRec
      cases hpc : content.data.contains '%' <;> simp [hkw, hpc, hfp]

/-- C4 witness: a plain-text response with a percentage but no completion
keyword parses heuristically to 73%, incomplete. -/
theorem C4_parse_policy_witness :
    (parse_evaluation (fun _ => none) "Expecting value" "we are 73% toward the goal").progress_percentage
      = 73 ∧
    (parse_evaluation (fun _ => none) "Expecting value" "we are 73% toward the goal").is_complete
      = false :=
  ((C4_parse_policy (fun _ => none) "Expecting value" "we are 73% toward the goal"
      rfl).2 (by decide)).2.1 73 (by decide) (by decide) (by decide)

/-! ## Execution Loop claim -/

/-- Helper: entered at `iteration` with enough remaining budget, the loop
returns at the first completing evaluation, having run one cycle per
non-completing iteration. -/
theorem executeTaskLoop_first_complete (evals : Nat → EvalRec) :
    ∀ (fuel iteration cycles k : Nat),
      iteration < k → k ≤ iteration + fuel →
      (∀ i, iteration + 1 ≤ i → i < k → (evals i).is_complete = false) →
      (evals k).is_complete = true →
      executeTaskLoop evals iteration fuel cycles
        = { result := (evals k).accomplished, evalCalls := k,
            cycles := cycles + (k - iteration - 1) } := by
  intro fuel
  induction fuel with
  | zero =>
      intro it cy k h1 h2 _ _
      exact absurd h1 (by omega)
  | succ n ih =>
      intro it cy k h1 h2 hPrev hk
      unfold executeTaskLoop
      dsimp only
      by_cases heq : k = it + 1
      · subst heq
        rw [hk]
        rw [if_pos rfl]
        congr 1
        omega
      · have hlt : it + 1 < k := by omega
        have hfalse : (evals (it + 1)).is_complete = false :=
          hPrev (it + 1) (le_refl (it + 1)) hlt
        rw [hfalse]
        rw [if_neg Bool.false_ne_true]
        rw [ih (it + 1) (cy + 1) k hlt (by omega)
              (fun i hi hik => hPrev i (by omega) hik) hk]
        have harith : cy + 1 + (k - (it + 1) - 1) = cy + (k - it - 1) := by omega
        rw [harith]

/-- C6: if the evaluator first reports completion on iteration k (within
the budget), the loop returns after exactly k evaluator calls with the
iteration-k accomplished text, and runs no further completion cycle after
that evaluation (exactly k - 1 cycles in total). -/
theorem C6_loop_returns_at_first_completion (evals : Nat → EvalRec)
    (max_iterations k : Nat) (h1 : 1 ≤ k) (h2 : k ≤ max_iterations)
    (hbefore : ∀ i, 1 ≤ i → i < k → (evals i).is_complete = false)
    (hk : (evals k).is_complete = true) :
    execute_task evals max_iterations
      = { result := (evals k).accomplished, evalCalls := k, cycles := k - 1 } := by
  unfold execute_task
  rw [executeTaskLoop_first_complete evals max_iterations 0 0 k (by omega) (by omega)
        (fun i hi hik => hbefore i hi hik) hk]
  have harith : (0 : Nat) + (k - 0 - 1) = k - 1 := by omega
  rw [harith]

/-- An in-progress evaluation fixture. -/
def evalRunning : EvalRec :=
  { accomplished := "half way", progress_percentage := 50,
    next_step := "keep going", suggested_tool := some "browser_open",
    is_complete := false, reasoning := "in progress" }

/-- A completing evaluation fixture. -/
def evalDone : EvalRec :=
  { accomplished := "weather reported", progress_percentage := 100,
    next_step := "nothing left", suggested_tool := none,
    is_complete := true, reasoning := "all steps finished" }

/-- An evaluator stub that completes on its third call. -/
def evalStream3 : Nat → EvalRec :=
  fun i => if i = 3 then evalDone else evalRunning

/-- C6 witness: with the stub that completes on call 3 and a budget of 25,
the loop makes exactly 3 evaluator calls, runs 2 cycles, and returns the
third call's accomplished text. -/
theorem C6_loop_returns_at_first_completion_witness :
    (∀ i, 1 ≤ i → i < 3 → (evalStream3 i).is_complete = false) ∧
    execute_task evalStream3 25
      = { result := "weather reported", evalCalls := 3, cycles := 2 } := by
  have hbefore : ∀ i, 1 ≤ i → i < 3 → (evalStream3 i).is_complete = false := by
    intro i hi1 hi3
    interval_cases i <;> rfl
  exact ⟨hbefore,
    C6_loop_returns_at_first_completion evalStream3 25 3 (by omega) (by omega)
      hbefore (by decide)⟩
